import Mathlib

/-!
# The byte-keyed map of `src/map.c`

A shallow embedding of `map.c` and theorems about it.

* Indices are `unsigned long`: natural numbers below `ULONG_SIZE`, with the
  arithmetic of the source reduced modulo `ULONG_SIZE` where it can wrap.
* Memory is a `Heap` of allocated blocks; a pointer is a block address and
  `0` is the null pointer.  The contents of a block just returned by `malloc`
  are indeterminate: every operation that allocates takes them from a
  parameter `uninit` (block address, offset ↦ cell).
* A `map_t *` argument is an `Option map_t` (`none` is the null pointer).
  Key and value arguments are the byte lists held by the caller's buffers.
* A call that searches a sorted map takes a recursion budget `fuel`; an
  operation returns `none` when the budget runs out or when the C code has
  no defined behaviour at that point, and `some` of its outcome otherwise.
* `map.h`, `vla.h` and the backing array `vla.c` are not among the sources;
  what `map.c` uses of them is modelled from the specification and marked so.
-/

namespace Map

/-! ## Result codes and machine words -/

/-- Modelled from the spec: the result codes of `map.h`, which is missing,
as the abstract result kinds of the specification (section 6). -/
inductive ResultKind where
  | Success
  | NullArgument
  | Empty
  | UnknownKey
  | InternalFailure
  | InvalidArgument
  deriving DecidableEq, Repr

/-- Modelled from the spec: `MAP_SUCCESS` of the missing `map.h`. -/
def MAP_SUCCESS : ResultKind := ResultKind.Success

/-- Modelled from the spec: `MAP_FAILURE` of the missing `map.h`, as an `int`
result code. -/
def MAP_FAILURE : ResultKind := ResultKind.InternalFailure

/-- Modelled from the spec: `MAP_NULL` of the missing `map.h`. -/
def MAP_NULL : ResultKind := ResultKind.NullArgument

/-- Modelled from the spec: `MAP_EMPTY` of the missing `map.h`. -/
def MAP_EMPTY : ResultKind := ResultKind.Empty

/-- Modelled from the spec: `MAP_UNKNOWN_KEY` of the missing `map.h`. -/
def MAP_UNKNOWN_KEY : ResultKind := ResultKind.UnknownKey

/-- The number of values of an `unsigned long` (64 bits). -/
def ULONG_SIZE : Nat := 2 ^ 64

/-- Modelled from the spec: `MAP_FAILURE` of the missing `map.h` once it is
returned through the `unsigned long` result of a search.  The failure codes are
negative (the source tests them with `< 0`), and the specification says that
not-found is a wrap-around in the unsigned index type: the model takes `-1`,
which converts to the largest `unsigned long`. -/
def MAP_FAILURE_ulong : Nat := ULONG_SIZE - 1

/-! ## Memory -/

/-- The allocated blocks (address and cells, newest first) and the next
address `malloc` hands out. -/
structure Heap where
  blocks : List (Nat × List Nat)
  next : Nat
  deriving DecidableEq, Repr

/-- The cells of the block at address `a`, or none when no block is allocated
there. -/
def Heap.lookup (h : Heap) (a : Nat) : Option (List Nat) :=
  h.blocks.lookup a

/-- The cells a read through pointer `a` sees (nothing when `a` is not
allocated). -/
def Heap.load (h : Heap) (a : Nat) : List Nat :=
  (h.lookup a).getD []

/-- The call `malloc(n)`: a fresh block of `n` cells with indeterminate
contents. -/
def Heap.malloc (uninit : Nat → Nat → Nat) (h : Heap) (n : Nat) : Nat × Heap :=
  (h.next, { blocks := (h.next, (List.range n).map (uninit h.next)) :: h.blocks,
             next := h.next + 1 })

/-- Overwrite the cells of the block at address `a`. -/
def Heap.store (h : Heap) (a : Nat) (cells : List Nat) : Heap :=
  { h with blocks := h.blocks.map (fun b => if b.1 = a then (a, cells) else b) }

/-- The call `free(a)`. -/
def Heap.free (h : Heap) (a : Nat) : Heap :=
  { h with blocks := h.blocks.filter (fun b => b.1 != a) }

/-- The call `memcmp(a, b, n)` on the cells of two buffers: negative, zero or
positive as the first `n` cells of `a` are below, equal to or above those of
`b`, cell by cell. -/
def memcmp : List Nat → List Nat → Nat → Int
  | _, _, 0 => 0
  | x :: xs, y :: ys, n + 1 =>
    if x < y then -1 else if y < x then 1 else memcmp xs ys n
  | _, _, _ + 1 => 0

/-- The call `memcpy(dst, src, n)`: the contents of `dst` afterwards. -/
def memcpy (dst src : List Nat) (n : Nat) : List Nat :=
  src.take n ++ dst.drop n

/-- An `int` converted to `unsigned long`. -/
def to_ulong (x : Int) : Nat := (x % (ULONG_SIZE : Int)).toNat

/-! ## Data model -/

/-- The `pair_t` record: the addresses of a key buffer and of a value
buffer. -/
structure pair_t where
  key : Nat
  val : Nat
  deriving DecidableEq, Repr

/-- Modelled from the spec: `sizeof(pair_t)`, two pointers. -/
def sizeof_pair_t : Nat := 16

/-- Modelled from the spec: the backing array `vla_t` of the missing `vla.h`,
holding `pair_t` elements by value.  `elements` is `none` when the storage is
not allocated. -/
structure vla_t where
  elements : Option (List pair_t)
  capacity : Nat
  deriving DecidableEq, Repr

/-- Modelled from the spec: the logical size `vla.size` of the backing
array. -/
def vla_t.size (v : vla_t) : Nat :=
  match v.elements with
  | some l => l.length
  | none => 0

/-- The `map_t` record. -/
structure map_t where
  vla : vla_t
  sorted : Bool
  key_size : Nat
  val_size : Nat
  deriving DecidableEq, Repr

/-- What a call leaves behind: its result code, the map record and the
heap. -/
structure Outcome where
  code : ResultKind
  map : Option map_t
  heap : Heap
  deriving DecidableEq, Repr

/-! ## The backing array (from the specification, section 4.1) -/

/-- Modelled from the spec: `vla_init` of the missing `vla.c`.  It fails when
`initial_capacity < 1`, or when the storage cannot be allocated (`alloc_ok`
false). -/
def vla_init (alloc_ok : Bool) (_element_size initial_capacity : Nat) : Option vla_t :=
  if initial_capacity < 1 ∨ alloc_ok = false then none
  else some { elements := some [], capacity := initial_capacity }

/-- Modelled from the spec: `vla_deinit` of the missing `vla.c` releases the
storage. -/
def vla_deinit (v : vla_t) : Option vla_t :=
  match v.elements with
  | none => none
  | some _ => some { elements := none, capacity := 0 }

/-- Modelled from the spec: `vla_get` of the missing `vla.c` copies out the
element at `index` and fails when `index ≥ size`. -/
def vla_get (v : vla_t) (index : Nat) : Option pair_t :=
  match v.elements with
  | none => none
  | some l => l[index]?

/-- Modelled from the spec: `vla_set` of the missing `vla.c` overwrites the
element at `index` and fails when `index ≥ size`. -/
def vla_set (v : vla_t) (index : Nat) (e : pair_t) : Option vla_t :=
  match v.elements with
  | none => none
  | some l =>
    if index < l.length then some { v with elements := some (l.set index e) }
    else none

/-- Modelled from the spec: `vla_enq` of the missing `vla.c` appends an
element, doubling the capacity when the storage is full. -/
def vla_enq (v : vla_t) (e : pair_t) : Option vla_t :=
  match v.elements with
  | none => none
  | some l =>
    some { elements := some (l ++ [e]),
           capacity := if l.length < v.capacity then v.capacity else 2 * v.capacity }

/-- Modelled from the spec: `vla_delete` of the missing `vla.c` removes the
element at `index`, shifting the later ones down by one, and fails when
`index ≥ size`. -/
def vla_delete (v : vla_t) (index : Nat) : Option vla_t :=
  match v.elements with
  | none => none
  | some l =>
    if index < l.length then some { v with elements := some (l.eraseIdx index) }
    else none

/-- Modelled from the spec: `vla_clear` of the missing `vla.c` resets the size
to 0, keeps the capacity and releases nothing the elements point to. -/
def vla_clear (v : vla_t) : Option vla_t :=
  match v.elements with
  | none => none
  | some _ => some { v with elements := some [] }

/-! ## `map.c` -/

/-- The function `map_binary_search` (map.c:13-36).  `cmp` is an
`unsigned long`, so the result of `memcmp` is converted before it is
tested. -/
def map_binary_search (heap : Heap) (map : map_t) (key : List Nat) :
    Nat → Nat → Nat → Option Nat
  | 0, _, _ => none
  | fuel + 1, low, high =>
    if low > high then some MAP_FAILURE_ulong
    else
      let mid := ((low + high) % ULONG_SIZE) / 2
      match vla_get map.vla mid with
      | none => some MAP_FAILURE_ulong
      | some pair =>
        let cmp : Nat := to_ulong (memcmp key (heap.load pair.key) map.key_size)
        if cmp = 0 then some mid
        else if cmp < 0 then
          map_binary_search heap map key fuel low ((mid + ULONG_SIZE - 1) % ULONG_SIZE)
        else
          map_binary_search heap map key fuel ((mid + 1) % ULONG_SIZE) high

/-- The loop of `map_linear_search` (map.c:43-49) at index `i`, with
`remaining = size - i` iterations left. -/
def map_linear_search_loop (heap : Heap) (map : map_t) (key : List Nat) : Nat → Nat → Nat
  | 0, _ => MAP_FAILURE_ulong
  | remaining + 1, i =>
    match vla_get map.vla i with
    | none => MAP_FAILURE_ulong
    | some pair =>
      if memcmp key (heap.load pair.key) map.key_size = 0 then i
      else map_linear_search_loop heap map key remaining (i + 1)

/-- The function `map_linear_search` (map.c:38-52). -/
def map_linear_search (heap : Heap) (map : map_t) (key : List Nat) : Nat :=
  map_linear_search_loop heap map key map.vla.size 0

/-- The index expression shared by `map_get`, `map_set` and `map_delete`
(map.c:114, 137, 161):
`map->sorted ? map_binary_search(map, key, 0, map->vla.size - 1) : map_linear_search(map, key)`. -/
def map_search (fuel : Nat) (heap : Heap) (map : map_t) (key : List Nat) : Option Nat :=
  if map.sorted then
    map_binary_search heap map key fuel 0 ((map.vla.size + ULONG_SIZE - 1) % ULONG_SIZE)
  else some (map_linear_search heap map key)

/-- The function `map_create_pair` (map.c:54-62): three allocations, the pair
record and its two buffers; neither `key` nor `val` is copied into them.  The
result is the address of the record, `0` for a null map (`key` and `val` are
buffers of the caller, never null in the model). -/
def map_create_pair (uninit : Nat → Nat → Nat) (map : Option map_t) (heap : Heap)
    (_key _val : List Nat) : Nat × Heap :=
  match map with
  | none => (0, heap)
  | some m =>
    let (p, h1) := Heap.malloc uninit heap 2
    let (k, h2) := Heap.malloc uninit h1 m.key_size
    let (v, h3) := Heap.malloc uninit h2 m.val_size
    (p, h3.store p [k, v])

/-- The pair record read through the pointer `p`, when `p` points to one. -/
def load_pair (heap : Heap) (p : Nat) : Option pair_t :=
  match heap.lookup p with
  | some [k, v] => some { key := k, val := v }
  | _ => none

/-- The function `map_destroy_pair` (map.c:64-73) on a pointer to a pair
record. -/
def map_destroy_pair (heap : Heap) (p : Nat) : ResultKind × Heap :=
  if p = 0 then (MAP_NULL, heap)
  else
    match load_pair heap p with
    | none => (MAP_NULL, heap)
    | some r =>
      if r.key = 0 ∨ r.val = 0 then (MAP_NULL, heap)
      else (MAP_SUCCESS, ((heap.free r.key).free r.val).free p)

/-- The function `map_init` (map.c:75-91).  `alloc_ok` says whether the
backing array can allocate its storage. -/
def map_init (alloc_ok : Bool) (map : Option map_t) (sorted : Bool)
    (key_size val_size initial_capacity : Nat) : ResultKind × Option map_t :=
  match map with
  | none => (MAP_NULL, none)
  | some _ =>
    if key_size < 1 ∨ val_size < 1 ∨ initial_capacity < 1 then (MAP_EMPTY, map)
    else
      match vla_init alloc_ok sizeof_pair_t initial_capacity with
      | none => (MAP_FAILURE, map)
      | some v =>
        (MAP_SUCCESS,
          some { vla := v, sorted := sorted, key_size := key_size, val_size := val_size })

/-- The function `map_deinit` (map.c:93-104). -/
def map_deinit (map : Option map_t) (heap : Heap) : Outcome :=
  match map with
  | none => { code := MAP_NULL, map := none, heap := heap }
  | some m =>
    match vla_deinit m.vla with
    | none => { code := MAP_FAILURE, map := map, heap := heap }
    | some v =>
      { code := MAP_SUCCESS, map := some { m with vla := v, key_size := 0, val_size := 0 },
        heap := heap }

/-- The function `map_get` (map.c:106-127).  `val` is the contents of the
caller's output buffer, returned as they are after the call.  The index `i`
is an `unsigned long`, compared with `0` as the source does. -/
def map_get (fuel : Nat) (map : Option map_t) (heap : Heap) (key val : List Nat) :
    Option (Outcome × List Nat) :=
  match map with
  | none => some ({ code := MAP_NULL, map := none, heap := heap }, val)
  | some m =>
    if m.vla.elements = none then some ({ code := MAP_NULL, map := map, heap := heap }, val)
    else if m.vla.size < 1 then some ({ code := MAP_EMPTY, map := map, heap := heap }, val)
    else
      match map_search fuel heap m key with
      | none => none
      | some i =>
        if i < 0 then some ({ code := MAP_UNKNOWN_KEY, map := map, heap := heap }, val)
        else
          match vla_get m.vla i with
          | none => some ({ code := MAP_FAILURE, map := map, heap := heap }, val)
          | some p =>
            some ({ code := MAP_SUCCESS, map := map, heap := heap },
                  memcpy val (heap.load p.val) m.val_size)

/-- The function `map_set` (map.c:129-151).  `vla_enq` and `vla_set` read the
new element through the pointer `p`; with no pair record behind `p` the read
has no defined result. -/
def map_set (uninit : Nat → Nat → Nat) (fuel : Nat) (map : Option map_t) (heap : Heap)
    (key val : List Nat) : Option Outcome :=
  match map with
  | none => some { code := MAP_NULL, map := none, heap := heap }
  | some m =>
    if m.vla.elements = none then some { code := MAP_NULL, map := map, heap := heap }
    else if m.vla.size < 1 then some { code := MAP_EMPTY, map := map, heap := heap }
    else
      match map_search fuel heap m key with
      | none => none
      | some i =>
        let (p, heap1) := map_create_pair uninit map heap key val
        match load_pair heap1 p with
        | none => none
        | some e =>
          if i < 0 then
            match vla_enq m.vla e with
            | none => some { code := MAP_FAILURE, map := map, heap := heap1 }
            | some v1 =>
              match vla_set v1 i e with
              | none =>
                some { code := MAP_FAILURE, map := some { m with vla := v1 }, heap := heap1 }
              | some v2 =>
                some { code := MAP_SUCCESS, map := some { m with vla := v2 }, heap := heap1 }
          else
            match vla_set m.vla i e with
            | none => some { code := MAP_FAILURE, map := map, heap := heap1 }
            | some v2 =>
              some { code := MAP_SUCCESS, map := some { m with vla := v2 }, heap := heap1 }

/-- The function `map_delete` (map.c:153-177).  The local is declared
`pair_t *p` and `vla_get(&map->vla, i, (void *)&p)` copies a whole element, a
`pair_t` of two pointers, over that one pointer: the copy writes past the
variable and `map_destroy_pair(p)` then reads a pair record out of whatever
`p` holds.  C gives neither step a meaning, so once `vla_get` succeeds the
model has no result; lines 170-176 are not reached with a defined state. -/
def map_delete (fuel : Nat) (map : Option map_t) (heap : Heap) (key : List Nat) :
    Option Outcome :=
  match map with
  | none => some { code := MAP_NULL, map := none, heap := heap }
  | some m =>
    if m.vla.elements = none then some { code := MAP_NULL, map := map, heap := heap }
    else if m.vla.size < 1 then some { code := MAP_EMPTY, map := map, heap := heap }
    else
      match map_search fuel heap m key with
      | none => none
      | some i =>
        if i < 0 then some { code := MAP_UNKNOWN_KEY, map := map, heap := heap }
        else
          match vla_get m.vla i with
          | none => some { code := MAP_FAILURE, map := map, heap := heap }
          | some _ => none

/-- The function `map_clear` (map.c:179-188). -/
def map_clear (map : Option map_t) (heap : Heap) : Outcome :=
  match map with
  | none => { code := MAP_FAILURE, map := none, heap := heap }
  | some m =>
    if m.vla.elements = none then { code := MAP_FAILURE, map := map, heap := heap }
    else
      match vla_clear m.vla with
      | none => { code := MAP_FAILURE, map := map, heap := heap }
      | some v => { code := MAP_SUCCESS, map := some { m with vla := v }, heap := heap }

/-! ## Call sequences and stored keys -/

/-- A call of one of the two operations that change a map. -/
inductive Mutation where
  | set (key val : List Nat)
  | delete (key : List Nat)
  deriving DecidableEq, Repr

/-- The calls of a list made one after the other on a map, each on the state
the one before left; `none` when one of them has no result. -/
def run_mutations (uninit : Nat → Nat → Nat) (fuel : Nat) :
    List Mutation → Option map_t → Heap → Option (Option map_t × Heap)
  | [], map, heap => some (map, heap)
  | Mutation.set key val :: rest, map, heap =>
    match map_set uninit fuel map heap key val with
    | none => none
    | some o => run_mutations uninit fuel rest o.map o.heap
  | Mutation.delete key :: rest, map, heap =>
    match map_delete fuel map heap key with
    | none => none
    | some o => run_mutations uninit fuel rest o.map o.heap

/-- The key buffers of the stored pairs, read by index 0..size-1. -/
def stored_keys (heap : Heap) (map : map_t) : List (List Nat) :=
  match map.vla.elements with
  | some l => l.map (fun p => heap.load p.key)
  | none => []

/-- The value buffers of the stored pairs, read by index 0..size-1. -/
def stored_vals (heap : Heap) (map : map_t) : List (List Nat) :=
  match map.vla.elements with
  | some l => l.map (fun p => heap.load p.val)
  | none => []

/-- The stored keys are strictly ascending under `memcmp` over `key_size`
bytes: each key compares below every key at a later index. -/
def keys_strictly_ascending (heap : Heap) (map : map_t) : Prop :=
  (stored_keys heap map).Pairwise (fun a b => memcmp a b map.key_size < 0)

/-- A call of one of the four operations of the public interface that work
on an initialised map; `out` is what the output buffer of a `map_get` holds
before the call. -/
inductive Call where
  | get (key out : List Nat)
  | set (key val : List Nat)
  | delete (key : List Nat)
  | clear
  deriving DecidableEq, Repr

/-- The calls of a list made one after the other on a map, each on the state
the one before left; `none` when one of them has no result. -/
def run_calls (uninit : Nat → Nat → Nat) (fuel : Nat) :
    List Call → Option map_t → Heap → Option (Option map_t × Heap)
  | [], map, heap => some (map, heap)
  | Call.get key out :: rest, map, heap =>
    match map_get fuel map heap key out with
    | none => none
    | some r => run_calls uninit fuel rest r.1.map r.1.heap
  | Call.set key val :: rest, map, heap =>
    match map_set uninit fuel map heap key val with
    | none => none
    | some o => run_calls uninit fuel rest o.map o.heap
  | Call.delete key :: rest, map, heap =>
    match map_delete fuel map heap key with
    | none => none
    | some o => run_calls uninit fuel rest o.map o.heap
  | Call.clear :: rest, map, heap =>
    run_calls uninit fuel rest (map_clear map heap).map (map_clear map heap).heap

/-- The key buffer of the pair stored at index `j`, as `vla_get` and a read
through `pair.key` give it (nothing when `j` is out of range). -/
def key_at (heap : Heap) (map : map_t) (j : Nat) : List Nat :=
  match vla_get map.vla j with
  | some pair => heap.load pair.key
  | none => []

/-- Two buffers are byte-equal over their first `n` bytes. -/
def byte_equal (a b : List Nat) (n : Nat) : Prop :=
  a.take n = b.take n

/-! ## Concrete inputs -/

/-- Fresh memory that reads as zero. -/
def zero_fill : Nat → Nat → Nat := fun _ _ => 0

/-- A map record before `map_init`. -/
def blank_map : map_t :=
  { vla := { elements := none, capacity := 0 }, sorted := false, key_size := 0, val_size := 0 }

/-- A heap with no allocation. -/
def empty_heap : Heap := { blocks := [], next := 1 }

/-- The map `map_init(&map, false, 4, 4, 4)` produces. -/
def fresh_map : map_t :=
  { vla := { elements := some [], capacity := 4 }, sorted := false, key_size := 4, val_size := 4 }

/-- The map `map_init(&map, true, 4, 4, 4)` produces. -/
def fresh_sorted_map : map_t :=
  { vla := { elements := some [], capacity := 4 }, sorted := true, key_size := 4, val_size := 4 }

/-- A heap with the buffers of one pair: key `[1]` at address 1, value `[9]`
at address 2. -/
def one_pair_heap : Heap := { blocks := [(1, [1]), (2, [9])], next := 3 }

/-- An unsorted map of one-byte keys and values holding the pair `[1] ↦ [9]`. -/
def one_pair_map : map_t :=
  { vla := { elements := some [{ key := 1, val := 2 }], capacity := 4 },
    sorted := false, key_size := 1, val_size := 1 }

/-- A heap with the buffers of two pairs: `[0] ↦ [5]` and `[1] ↦ [9]`. -/
def two_pair_heap : Heap := { blocks := [(1, [0]), (2, [5]), (3, [1]), (4, [9])], next := 5 }

/-- An unsorted map of one-byte keys and values holding `[0] ↦ [5]` and
`[1] ↦ [9]`. -/
def two_pair_map : map_t :=
  { vla := { elements := some [{ key := 1, val := 2 }, { key := 3, val := 4 }], capacity := 4 },
    sorted := false, key_size := 1, val_size := 1 }

/-- A heap with the buffers of three pairs: `[1] ↦ [9]`, `[2] ↦ [8]` and
`[3] ↦ [7]`. -/
def three_pair_heap : Heap :=
  { blocks := [(1, [1]), (2, [9]), (3, [2]), (4, [8]), (5, [3]), (6, [7])], next := 7 }

/-- A sorted map of one-byte keys and values holding `[1] ↦ [9]`, `[2] ↦ [8]`
and `[3] ↦ [7]` in ascending key order. -/
def three_pair_sorted_map : map_t :=
  { vla := { elements := some [{ key := 1, val := 2 }, { key := 3, val := 4 },
                               { key := 5, val := 6 }], capacity := 4 },
    sorted := true, key_size := 1, val_size := 1 }

/-- A sorted map of one-byte keys and values holding the single pair
`[1] ↦ [9]`. -/
def one_pair_sorted_map : map_t :=
  { vla := { elements := some [{ key := 1, val := 2 }], capacity := 4 },
    sorted := true, key_size := 1, val_size := 1 }

/-! ## General facts -/

/-- A successful `map_init` leaves an empty backing array of the requested
capacity and the three parameters as given, and its size parameters were all
at least 1. -/
theorem map_init_success {alloc_ok : Bool} {b m : map_t} {sorted : Bool}
    {key_size val_size initial_capacity : Nat}
    (h : map_init alloc_ok (some b) sorted key_size val_size initial_capacity
      = (MAP_SUCCESS, some m)) :
    m = { vla := { elements := some [], capacity := initial_capacity }, sorted := sorted,
          key_size := key_size, val_size := val_size }
    ∧ ¬ (key_size < 1 ∨ val_size < 1 ∨ initial_capacity < 1) := by
  unfold map_init at h
  by_cases hp : key_size < 1 ∨ val_size < 1 ∨ initial_capacity < 1
  · rw [if_pos hp] at h
    have h1 : MAP_EMPTY = MAP_SUCCESS := congrArg Prod.fst h
    exact absurd h1 (by decide)
  · rw [if_neg hp] at h
    unfold vla_init at h
    by_cases hv : initial_capacity < 1 ∨ alloc_ok = false
    · rw [if_pos hv] at h
      have h1 : MAP_FAILURE = MAP_SUCCESS := congrArg Prod.fst h
      exact absurd h1 (by decide)
    · rw [if_neg hv] at h
      have h2 := congrArg Prod.snd h
      simp only [Option.some.injEq] at h2
      exact ⟨h2.symm, hp⟩

/-- On an allocated backing array of size 0, `map_set` returns `MAP_EMPTY` and
leaves the map and the heap as they were. -/
theorem map_set_of_size_zero (uninit : Nat → Nat → Nat) (fuel : Nat) (m : map_t) (heap : Heap)
    (key val : List Nat) (he : m.vla.elements = some []) :
    map_set uninit fuel (some m) heap key val
      = some { code := MAP_EMPTY, map := some m, heap := heap } := by
  simp [map_set, vla_t.size, he]

/-- On an allocated backing array of size 0, `map_get` returns `MAP_EMPTY` and
leaves the map, the heap and the output buffer as they were. -/
theorem map_get_of_size_zero (fuel : Nat) (m : map_t) (heap : Heap) (key val : List Nat)
    (he : m.vla.elements = some []) :
    map_get fuel (some m) heap key val
      = some ({ code := MAP_EMPTY, map := some m, heap := heap }, val) := by
  simp [map_get, vla_t.size, he]

/-- On an allocated backing array of size 0, `map_delete` returns `MAP_EMPTY`
and leaves the map and the heap as they were. -/
theorem map_delete_of_size_zero (fuel : Nat) (m : map_t) (heap : Heap) (key : List Nat)
    (he : m.vla.elements = some []) :
    map_delete fuel (some m) heap key
      = some { code := MAP_EMPTY, map := some m, heap := heap } := by
  simp [map_delete, vla_t.size, he]

/-- A sequence of `map_set` and `map_delete` calls on a map of size 0 leaves
the map and the heap as they were. -/
theorem run_mutations_of_size_zero (uninit : Nat → Nat → Nat) (fuel : Nat) (m : map_t)
    (heap : Heap) (he : m.vla.elements = some []) (calls : List Mutation) :
    run_mutations uninit fuel calls (some m) heap = some (some m, heap) := by
  induction calls with
  | nil => rfl
  | cons c rest ih =>
    cases c with
    | set key val =>
      simp only [run_mutations, map_set_of_size_zero uninit fuel m heap key val he]
      exact ih
    | delete key =>
      simp only [run_mutations, map_delete_of_size_zero fuel m heap key he]
      exact ih

/-- Whatever its arguments, `map_get` does not return `MAP_UNKNOWN_KEY`: the
index is unsigned, so the test `i < 0` never holds. -/
theorem map_get_code_ne_unknown_key (fuel : Nat) (map : Option map_t) (heap : Heap)
    (key val : List Nat) (r : Outcome × List Nat)
    (h : map_get fuel map heap key val = some r) : r.1.code ≠ ResultKind.UnknownKey := by
  unfold map_get at h
  split at h
  · cases h; simp [MAP_NULL]
  · split at h
    · cases h; simp [MAP_NULL]
    · split at h
      · cases h; simp [MAP_EMPTY]
      · split at h
        · exact absurd h (by simp)
        · rw [if_neg (Nat.not_lt_zero _)] at h
          split at h
          · cases h; simp [MAP_FAILURE]
          · cases h; simp [MAP_SUCCESS]

/-- Whatever its arguments, `map_delete` does not return `MAP_UNKNOWN_KEY`. -/
theorem map_delete_code_ne_unknown_key (fuel : Nat) (map : Option map_t) (heap : Heap)
    (key : List Nat) (o : Outcome)
    (h : map_delete fuel map heap key = some o) : o.code ≠ ResultKind.UnknownKey := by
  unfold map_delete at h
  split at h
  · cases h; simp [MAP_NULL]
  · split at h
    · cases h; simp [MAP_NULL]
    · split at h
      · cases h; simp [MAP_EMPTY]
      · split at h
        · exact absurd h (by simp)
        · rw [if_neg (Nat.not_lt_zero _)] at h
          split at h
          · cases h; simp [MAP_FAILURE]
          · exact absurd h (by simp)

/-- A successful `vla_set` keeps the size. -/
theorem vla_set_size (v v1 : vla_t) (i : Nat) (e : pair_t) (h : vla_set v i e = some v1) :
    v1.size = v.size := by
  unfold vla_set at h
  split at h
  · exact absurd h (by simp)
  · rename_i l hl
    split at h
    · cases h
      simp [vla_t.size, hl]
    · exact absurd h (by simp)

/-- Whatever it returns, `map_set` on a non-null map leaves the size as it
was: the branch that appends is guarded by `i < 0` on an unsigned index. -/
theorem map_set_size_unchanged (uninit : Nat → Nat → Nat) (fuel : Nat) (m : map_t) (heap : Heap)
    (key val : List Nat) (o : Outcome)
    (h : map_set uninit fuel (some m) heap key val = some o) :
    ∃ m1, o.map = some m1 ∧ m1.vla.size = m.vla.size := by
  unfold map_set at h
  simp only at h
  split at h
  · cases h; exact ⟨m, rfl, rfl⟩
  · split at h
    · cases h; exact ⟨m, rfl, rfl⟩
    · split at h
      · exact absurd h (by simp)
      · split at h
        · exact absurd h (by simp)
        · rw [if_neg (Nat.not_lt_zero _)] at h
          split at h
          · cases h; exact ⟨m, rfl, rfl⟩
          · rename_i v2 hv
            cases h
            exact ⟨_, rfl, vla_set_size _ _ _ _ hv⟩
/-- On buffers of at least `n` bytes, `memcmp` over `n` bytes is zero exactly
when the first `n` bytes are equal. -/
theorem memcmp_eq_zero_iff (n : Nat) : ∀ (a b : List Nat), n ≤ a.length → n ≤ b.length →
    (memcmp a b n = 0 ↔ a.take n = b.take n) := by
  induction n with
  | zero => intro a b _ _; simp [memcmp]
  | succ n ih =>
    intro a b ha hb
    cases a with
    | nil => simp at ha
    | cons x xs =>
      cases b with
      | nil => simp at hb
      | cons y ys =>
        simp only [List.length_cons, Nat.add_le_add_iff_right] at ha hb
        simp only [memcmp, List.take_succ_cons, List.cons.injEq]
        by_cases h1 : x < y
        · simp [h1]; omega
        · by_cases h2 : y < x
          · simp [h1, h2]; omega
          · have : x = y := by omega
            simp [h1, h2, this, ih xs ys ha hb]

/-- An index below the size holds an element. -/
theorem vla_get_of_lt (v : vla_t) (i : Nat) (h : i < v.size) : ∃ p, vla_get v i = some p := by
  unfold vla_t.size at h
  unfold vla_get
  cases hl : v.elements with
  | none => rw [hl] at h; exact absurd h (Nat.not_lt_zero _)
  | some l =>
    rw [hl] at h
    exact ⟨l[i], List.getElem?_eq_getElem h⟩

/-- An `unsigned long` is never below zero. -/
theorem to_ulong_not_lt_zero (x : Int) : ¬ to_ulong x < 0 := Nat.not_lt_zero _

/-- The loop of `map_linear_search` from index `i` either finds no key equal
under `memcmp` at any index from `i` on and returns the sentinel, or returns
the first index from `i` on whose key is equal under `memcmp`. -/
theorem map_linear_search_loop_spec (heap : Heap) (m : map_t) (key : List Nat) :
    ∀ (remaining i : Nat), i + remaining = m.vla.size →
      (map_linear_search_loop heap m key remaining i = MAP_FAILURE_ulong
        ∧ ∀ j, i ≤ j → j < m.vla.size → memcmp key (key_at heap m j) m.key_size ≠ 0)
      ∨ (i ≤ map_linear_search_loop heap m key remaining i
        ∧ map_linear_search_loop heap m key remaining i < m.vla.size
        ∧ memcmp key (key_at heap m (map_linear_search_loop heap m key remaining i))
            m.key_size = 0
        ∧ ∀ j, i ≤ j → j < map_linear_search_loop heap m key remaining i →
            memcmp key (key_at heap m j) m.key_size ≠ 0) := by
  intro remaining
  induction remaining with
  | zero =>
    intro i hi
    left
    exact ⟨rfl, fun j h1 h2 => by omega⟩
  | succ n ih =>
    intro i hi
    obtain ⟨p, hp⟩ := vla_get_of_lt m.vla i (by omega)
    have hk : key_at heap m i = heap.load p.key := by simp [key_at, hp]
    by_cases hc : memcmp key (heap.load p.key) m.key_size = 0
    · have hr : map_linear_search_loop heap m key (n + 1) i = i := by
        simp [map_linear_search_loop, hp, hc]
      right
      rw [hr]
      exact ⟨Nat.le_refl _, by omega, by rw [hk]; exact hc, fun j h1 h2 => by omega⟩
    · have hr : map_linear_search_loop heap m key (n + 1) i
          = map_linear_search_loop heap m key n (i + 1) := by
        simp [map_linear_search_loop, hp, hc]
      rw [hr]
      have hne : ∀ j, i ≤ j → j < i + 1 → memcmp key (key_at heap m j) m.key_size ≠ 0 := by
        intro j h1 h2
        have : j = i := by omega
        rw [this, hk]
        exact hc
      rcases ih (i + 1) (by omega) with ⟨h1, h2⟩ | ⟨h1, h2, h3, h4⟩
      · left
        refine ⟨h1, fun j hj1 hj2 => ?_⟩
        by_cases hji : j < i + 1
        · exact hne j hj1 hji
        · exact h2 j (by omega) hj2
      · right
        refine ⟨by omega, h2, h3, fun j hj1 hj2 => ?_⟩
        by_cases hji : j < i + 1
        · exact hne j hj1 hji
        · exact h4 j (by omega) hj2

/-- With `high` below half the range of an `unsigned long`, `map_binary_search`
from `low ≤ high + 1` returns within `high + 2 - low` invocations. -/
theorem map_binary_search_returns (heap : Heap) (m : map_t) (key : List Nat) (high : Nat)
    (hh : high < ULONG_SIZE / 2) :
    ∀ (fuel low : Nat), low ≤ high + 1 → high + 2 ≤ fuel + low →
      ∃ r, map_binary_search heap m key fuel low high = some r := by
  intro fuel
  induction fuel with
  | zero => intro low h1 h2; omega
  | succ n ih =>
    intro low h1 h2
    unfold map_binary_search
    by_cases hl : low > high
    · rw [if_pos hl]; exact ⟨_, rfl⟩
    · rw [if_neg hl]
      simp only
      cases hg : vla_get m.vla ((low + high) % ULONG_SIZE / 2) with
      | none => exact ⟨_, rfl⟩
      | some pair =>
        simp only
        by_cases hc : to_ulong (memcmp key (heap.load pair.key) m.key_size) = 0
        · rw [if_pos hc]; exact ⟨_, rfl⟩
        · rw [if_neg hc, if_neg (to_ulong_not_lt_zero _)]
          unfold ULONG_SIZE at hh ⊢
          apply ih <;> omega

/-- More recursion budget does not change a result of `map_binary_search`. -/
theorem map_binary_search_fuel_mono (heap : Heap) (m : map_t) (key : List Nat) :
    ∀ (fuel low high r : Nat), map_binary_search heap m key fuel low high = some r →
      map_binary_search heap m key (fuel + 1) low high = some r := by
  intro fuel
  induction fuel with
  | zero => intro low high r h; simp [map_binary_search] at h
  | succ n ih =>
    intro low high r h
    unfold map_binary_search at h ⊢
    by_cases hl : low > high
    · rw [if_pos hl] at h ⊢; exact h
    · rw [if_neg hl] at h ⊢
      simp only at h ⊢
      cases hg : vla_get m.vla ((low + high) % ULONG_SIZE / 2) with
      | none => rw [hg] at h; exact h
      | some pair =>
        rw [hg] at h
        simp only at h ⊢
        by_cases hc : to_ulong (memcmp key (heap.load pair.key) m.key_size) = 0
        · rw [if_pos hc] at h ⊢; exact h
        · rw [if_neg hc, if_neg (to_ulong_not_lt_zero _)] at h ⊢
          exact ih _ _ _ h
/-- More recursion budget does not change a result of `map_binary_search`,
however much is added. -/
theorem map_binary_search_fuel_le (heap : Heap) (m : map_t) (key : List Nat)
    (fuel low high r : Nat) (h : map_binary_search heap m key fuel low high = some r) :
    ∀ (more : Nat), map_binary_search heap m key (fuel + more) low high = some r := by
  intro more
  induction more with
  | zero => exact h
  | succ n ih => exact map_binary_search_fuel_mono heap m key (fuel + n) low high r ih

/-- The index expression of `map_get`, `map_set` and `map_delete` has a result
on a non-empty map whose size is at most half the range of an `unsigned long`,
given a recursion budget above the size. -/
theorem map_search_returns (fuel : Nat) (heap : Heap) (m : map_t) (key : List Nat)
    (hsize : 1 ≤ m.vla.size) (hfit : m.vla.size ≤ ULONG_SIZE / 2) (hfuel : m.vla.size < fuel) :
    ∃ i, map_search fuel heap m key = some i := by
  unfold map_search
  cases m.sorted with
  | false => exact ⟨_, rfl⟩
  | true =>
    have hhigh : (m.vla.size + ULONG_SIZE - 1) % ULONG_SIZE = m.vla.size - 1 := by
      unfold ULONG_SIZE at hfit ⊢
      omega
    simp only [if_true, hhigh]
    apply map_binary_search_returns
    · unfold ULONG_SIZE at hfit ⊢
      omega
    · omega
    · omega

/-- The function `map_get` has a result on every map whose size is at most
half the range of an `unsigned long`, given a recursion budget above the
size. -/
theorem map_get_returns (fuel : Nat) (map : Option map_t) (heap : Heap) (key val : List Nat)
    (h : ∀ m, map = some m → m.vla.size ≤ ULONG_SIZE / 2 ∧ m.vla.size < fuel) :
    ∃ r, map_get fuel map heap key val = some r := by
  cases map with
  | none => exact ⟨_, rfl⟩
  | some m =>
    obtain ⟨hfit, hfuel⟩ := h m rfl
    unfold map_get
    simp only
    by_cases he : m.vla.elements = none
    · rw [if_pos he]; exact ⟨_, rfl⟩
    · rw [if_neg he]
      by_cases hs : m.vla.size < 1
      · rw [if_pos hs]; exact ⟨_, rfl⟩
      · rw [if_neg hs]
        obtain ⟨i, hi⟩ := map_search_returns fuel heap m key (by omega) hfit hfuel
        rw [hi]
        simp only [if_neg (Nat.not_lt_zero _)]
        cases vla_get m.vla i with
        | none => exact ⟨_, rfl⟩
        | some p => exact ⟨_, rfl⟩

/-- On an allocated backing array of size 0, `map_clear` returns `MAP_SUCCESS`
and leaves the map and the heap as they were. -/
theorem map_clear_of_size_zero (m : map_t) (heap : Heap) (he : m.vla.elements = some []) :
    map_clear (some m) heap = { code := MAP_SUCCESS, map := some m, heap := heap } := by
  obtain ⟨⟨elements, capacity⟩, sorted, key_size, val_size⟩ := m
  simp only at he
  subst he
  rfl

/-- A sequence of calls of the public interface on a map of size 0 leaves the
map and the heap as they were. -/
theorem run_calls_of_size_zero (uninit : Nat → Nat → Nat) (fuel : Nat) (m : map_t)
    (heap : Heap) (he : m.vla.elements = some []) (calls : List Call) :
    run_calls uninit fuel calls (some m) heap = some (some m, heap) := by
  induction calls with
  | nil => rfl
  | cons c rest ih =>
    cases c with
    | get key out =>
      simp only [run_calls, map_get_of_size_zero fuel m heap key out he]
      exact ih
    | set key val =>
      simp only [run_calls, map_set_of_size_zero uninit fuel m heap key val he]
      exact ih
    | delete key =>
      simp only [run_calls, map_delete_of_size_zero fuel m heap key he]
      exact ih
    | clear =>
      simp only [run_calls, map_clear_of_size_zero m heap he]
      exact ih

/-- Whatever it returns, `map_get` leaves the map and the heap as they were,
and the output buffer too unless it returns `MAP_SUCCESS`. -/
theorem map_get_frame (fuel : Nat) (map : Option map_t) (heap : Heap) (key val : List Nat)
    (r : Outcome × List Nat) (h : map_get fuel map heap key val = some r) :
    r.1.map = map ∧ r.1.heap = heap ∧ (r.1.code ≠ ResultKind.Success → r.2 = val) := by
  unfold map_get at h
  split at h
  · cases h; exact ⟨rfl, rfl, fun _ => rfl⟩
  · split at h
    · cases h; exact ⟨rfl, rfl, fun _ => rfl⟩
    · split at h
      · cases h; exact ⟨rfl, rfl, fun _ => rfl⟩
      · split at h
        · exact absurd h (by simp)
        · rw [if_neg (Nat.not_lt_zero _)] at h
          split at h
          · cases h; exact ⟨rfl, rfl, fun _ => rfl⟩
          · cases h; exact ⟨rfl, rfl, fun hc => absurd rfl hc⟩

/-- When `map_set` returns `MAP_NULL` or `MAP_EMPTY` it has left the map and
the heap as they were. -/
theorem map_set_precondition_frame (uninit : Nat → Nat → Nat) (fuel : Nat)
    (map : Option map_t) (heap : Heap) (key val : List Nat) (o : Outcome)
    (h : map_set uninit fuel map heap key val = some o)
    (hc : o.code = ResultKind.NullArgument ∨ o.code = ResultKind.Empty) :
    o.map = map ∧ o.heap = heap := by
  unfold map_set at h
  simp only at h
  split at h
  · cases h; exact ⟨rfl, rfl⟩
  · split at h
    · cases h; exact ⟨rfl, rfl⟩
    · split at h
      · cases h; exact ⟨rfl, rfl⟩
      · split at h
        · exact absurd h (by simp)
        · split at h
          · exact absurd h (by simp)
          · rw [if_neg (Nat.not_lt_zero _)] at h
            split at h
            · cases h; simp [MAP_FAILURE] at hc
            · cases h; simp [MAP_SUCCESS] at hc

/-- When `map_delete` returns `MAP_NULL` or `MAP_EMPTY` it has left the map
and the heap as they were. -/
theorem map_delete_precondition_frame (fuel : Nat) (map : Option map_t) (heap : Heap)
    (key : List Nat) (o : Outcome) (h : map_delete fuel map heap key = some o)
    (hc : o.code = ResultKind.NullArgument ∨ o.code = ResultKind.Empty) :
    o.map = map ∧ o.heap = heap := by
  unfold map_delete at h
  split at h
  · cases h; exact ⟨rfl, rfl⟩
  · split at h
    · cases h; exact ⟨rfl, rfl⟩
    · split at h
      · cases h; exact ⟨rfl, rfl⟩
      · split at h
        · exact absurd h (by simp)
        · rw [if_neg (Nat.not_lt_zero _)] at h
          split at h
          · cases h; simp [MAP_FAILURE] at hc
          · exact absurd h (by simp)

/-- The function `map_clear` leaves the heap as it was. -/
theorem map_clear_heap (map : Option map_t) (heap : Heap) : (map_clear map heap).heap = heap := by
  unfold map_clear
  split
  · rfl
  · split
    · rfl
    · split <;> rfl

/-- The function `map_deinit` leaves the heap as it was. -/
theorem map_deinit_heap (map : Option map_t) (heap : Heap) :
    (map_deinit map heap).heap = heap := by
  unfold map_deinit
  split
  · rfl
  · split <;> rfl
/-! ## The claims -/

/-- C1 (round trip) evaluated where the code departs from it.  On the map
`map_init(&map, false, 4, 4, 4)` has just produced, `map_set([1,0,0,0],
[9,9,9,9])` returns Empty, not Success, and stores nothing; the `map_get` that
follows returns Empty and leaves the output buffer alone.  On a map that
already holds `[1] ↦ [9]`, `map_set([1], [7])` returns Success, yet the
`map_get([1])` that follows returns InternalFailure and copies nothing out. -/
theorem C1_round_trip_fails :
    map_init true (some blank_map) false 4 4 4 = (ResultKind.Success, some fresh_map)
    ∧ map_set zero_fill 8 (some fresh_map) empty_heap [1, 0, 0, 0] [9, 9, 9, 9]
        = some { code := ResultKind.Empty, map := some fresh_map, heap := empty_heap }
    ∧ map_get 8 (some fresh_map) empty_heap [1, 0, 0, 0] [0, 0, 0, 0]
        = some ({ code := ResultKind.Empty, map := some fresh_map, heap := empty_heap },
                [0, 0, 0, 0])
    ∧ (map_set zero_fill 8 (some one_pair_map) one_pair_heap [1] [7]).map
          (fun o => (o.code, (map_get 8 o.map o.heap [1] [0]).map
            (fun r => (r.1.code, r.2))))
        = some (ResultKind.Success, some (ResultKind.InternalFailure, [0])) := by
  decide

/-- C2 (absent key) evaluated where the code departs from it.  The unsorted
map holds the single pair `[1] ↦ [9]`; for the absent key `[2]` both
`map_get` and `map_delete` return InternalFailure, not UnknownKey.  The map,
the heap and the output buffer are left as they were. -/
theorem C2_absent_key_is_internal_failure :
    map_get 8 (some one_pair_map) one_pair_heap [2] [0]
      = some ({ code := ResultKind.InternalFailure, map := some one_pair_map,
                heap := one_pair_heap }, [0])
    ∧ map_delete 8 (some one_pair_map) one_pair_heap [2]
      = some { code := ResultKind.InternalFailure, map := some one_pair_map,
               heap := one_pair_heap }
    ∧ stored_keys one_pair_heap one_pair_map = [[1]] := by
  decide

/-- C3 (deletion) evaluated where the code departs from it.  The sorted map
holds `[1]`, `[2]`, `[3]` in strictly ascending order; `map_delete([1])`
returns InternalFailure, not Success, and the map still holds all three
pairs: the binary search starts at index 1 and only ever moves right, so it
misses the key at index 0. -/
theorem C3_delete_of_stored_key_fails :
    stored_keys three_pair_heap three_pair_sorted_map = [[1], [2], [3]]
    ∧ keys_strictly_ascending three_pair_heap three_pair_sorted_map
    ∧ map_search 8 three_pair_heap three_pair_sorted_map [1] = some MAP_FAILURE_ulong
    ∧ map_delete 8 (some three_pair_sorted_map) three_pair_heap [1]
      = some { code := ResultKind.InternalFailure, map := some three_pair_sorted_map,
               heap := three_pair_heap } := by
  refine ⟨by decide, ?_, by decide, by decide⟩
  unfold keys_strictly_ascending
  decide

/-- C4 (uniqueness) evaluated where the code departs from it.  The unsorted
map holds `[0] ↦ [5]` and `[1] ↦ [9]`; with fresh memory reading as zero,
`map_set([1], [7])` returns Success and keeps the size at 2, but the pair at
index 1 now has the key buffer `[0]` and the value buffer `[0]`: the key
changed, the value is not `[7]`, and two stored pairs have byte-equal keys. -/
theorem C4_set_on_stored_key_duplicates_a_key :
    stored_keys two_pair_heap two_pair_map = [[0], [1]]
    ∧ (map_set zero_fill 8 (some two_pair_map) two_pair_heap [1] [7]).map
          (fun o => (o.code, o.map.map (stored_keys o.heap), o.map.map (stored_vals o.heap)))
        = some (ResultKind.Success, some [[0], [0]], some [[5], [0]]) := by
  decide

/-- C5 (sorted invariant) evaluated where the code departs from it.  The map
has `sorted = true` and holds the keys `[1]`, `[2]`, `[3]` in strictly
ascending order.  The binary search finds the key `[3]` at index 2, and with
fresh memory reading as zero `map_set([3], [5])` returns Success and leaves
the stored keys `[1]`, `[2]`, `[0]`, which are no longer ascending: the pair
written at index 2 has a key buffer that was never filled. -/
theorem C5_set_breaks_ascending_order :
    three_pair_sorted_map.sorted = true
    ∧ stored_keys three_pair_heap three_pair_sorted_map = [[1], [2], [3]]
    ∧ keys_strictly_ascending three_pair_heap three_pair_sorted_map
    ∧ map_search 8 three_pair_heap three_pair_sorted_map [3] = some 2
    ∧ (map_set zero_fill 8 (some three_pair_sorted_map) three_pair_heap [3] [5]).map
          (fun o => (o.code, o.map.map (fun m => (m.sorted, stored_keys o.heap m))))
        = some (ResultKind.Success, some (true, [[1], [2], [0]]))
    ∧ ∃ o m1, map_set zero_fill 8 (some three_pair_sorted_map) three_pair_heap [3] [5] = some o
        ∧ o.map = some m1 ∧ m1.sorted = true ∧ ¬ keys_strictly_ascending o.heap m1 := by
  refine ⟨rfl, by decide, ?_, by decide, by decide, _, _, rfl, rfl, rfl, ?_⟩
  · unfold keys_strictly_ascending
    decide
  · unfold keys_strictly_ascending
    decide

/-- C6 (empty map): on the map a successful `map_init` has just produced,
`map_get` and `map_delete` return Empty for every key, whatever the recursion
budget (none at all included, so no search is made), and leave the map, the
heap and the output buffer as they were. -/
theorem C6_empty_map (alloc_ok : Bool) (b m : map_t) (sorted : Bool)
    (key_size val_size initial_capacity : Nat)
    (hinit : map_init alloc_ok (some b) sorted key_size val_size initial_capacity
      = (MAP_SUCCESS, some m))
    (fuel : Nat) (heap : Heap) (key val : List Nat) :
    m.vla.size = 0
    ∧ map_get fuel (some m) heap key val
        = some ({ code := ResultKind.Empty, map := some m, heap := heap }, val)
    ∧ map_delete fuel (some m) heap key
        = some { code := ResultKind.Empty, map := some m, heap := heap } := by
  have hm := (map_init_success hinit).1
  have he : m.vla.elements = some [] := by rw [hm]
  exact ⟨by simp [vla_t.size, he], map_get_of_size_zero fuel m heap key val he,
    map_delete_of_size_zero fuel m heap key he⟩

/-- C6 at a concrete input: the sorted map of `map_init(&map, true, 4, 4, 4)`,
the key `[1,0,0,0]` and no recursion budget. -/
theorem C6_empty_map_witness :
    map_init true (some blank_map) true 4 4 4 = (MAP_SUCCESS, some fresh_sorted_map)
    ∧ fresh_sorted_map.vla.size = 0
    ∧ map_get 0 (some fresh_sorted_map) empty_heap [1, 0, 0, 0] [0, 0, 0, 0]
        = some ({ code := ResultKind.Empty, map := some fresh_sorted_map, heap := empty_heap },
                [0, 0, 0, 0])
    ∧ map_delete 0 (some fresh_sorted_map) empty_heap [1, 0, 0, 0]
        = some { code := ResultKind.Empty, map := some fresh_sorted_map, heap := empty_heap } :=
  ⟨by decide,
   C6_empty_map true blank_map fresh_sorted_map true 4 4 4 (by decide) 0 empty_heap
     [1, 0, 0, 0] [0, 0, 0, 0]⟩

/-- C7 (preconditions of `map_set`): `map_set` returns NullArgument for a null
map and for a map whose storage is not allocated, and Empty for an allocated
map of size 0; each time the map and the heap are left as they were (no pair
is allocated), no search is made (any recursion budget does), and `map_get`
returns the same code on the same map. -/
theorem C7_map_set_preconditions (uninit : Nat → Nat → Nat) (fuel : Nat) (m : map_t)
    (heap : Heap) (key val out : List Nat) :
    (map_set uninit fuel none heap key val
        = some { code := ResultKind.NullArgument, map := none, heap := heap }
      ∧ (map_get fuel none heap key out).map (fun r => r.1.code)
        = some ResultKind.NullArgument)
    ∧ (m.vla.elements = none →
        map_set uninit fuel (some m) heap key val
          = some { code := ResultKind.NullArgument, map := some m, heap := heap }
        ∧ (map_get fuel (some m) heap key out).map (fun r => r.1.code)
          = some ResultKind.NullArgument)
    ∧ (m.vla.elements ≠ none → m.vla.size = 0 →
        map_set uninit fuel (some m) heap key val
          = some { code := ResultKind.Empty, map := some m, heap := heap }
        ∧ (map_get fuel (some m) heap key out).map (fun r => r.1.code)
          = some ResultKind.Empty) := by
  refine ⟨⟨rfl, rfl⟩, ?_, ?_⟩
  · intro hn
    simp [map_set, map_get, hn, MAP_NULL]
  · intro hn hs
    have he : m.vla.elements = some [] := by
      cases hl : m.vla.elements with
      | none => exact absurd hl hn
      | some l =>
        simp only [vla_t.size, hl] at hs
        rw [List.length_eq_zero.mp hs]
    rw [map_set_of_size_zero uninit fuel m heap key val he,
      map_get_of_size_zero fuel m heap key out he]
    exact ⟨rfl, rfl⟩

/-- C7 at concrete inputs: the null map, the map record before `map_init`
(storage not allocated) and the map `map_init(&map, false, 4, 4, 4)`
produces (size 0). -/
theorem C7_map_set_preconditions_witness :
    map_set zero_fill 0 none one_pair_heap [1, 0, 0, 0] [9, 9, 9, 9]
        = some { code := ResultKind.NullArgument, map := none, heap := one_pair_heap }
    ∧ (blank_map.vla.elements = none
      ∧ map_set zero_fill 0 (some blank_map) one_pair_heap [1, 0, 0, 0] [9, 9, 9, 9]
        = some { code := ResultKind.NullArgument, map := some blank_map, heap := one_pair_heap })
    ∧ (fresh_map.vla.elements ≠ none ∧ fresh_map.vla.size = 0
      ∧ map_set zero_fill 0 (some fresh_map) one_pair_heap [1, 0, 0, 0] [9, 9, 9, 9]
        = some { code := ResultKind.Empty, map := some fresh_map, heap := one_pair_heap }) :=
  have h := C7_map_set_preconditions zero_fill 0 blank_map one_pair_heap [1, 0, 0, 0]
    [9, 9, 9, 9] [0, 0, 0, 0]
  have g := C7_map_set_preconditions zero_fill 0 fresh_map one_pair_heap [1, 0, 0, 0]
    [9, 9, 9, 9] [0, 0, 0, 0]
  ⟨h.1.1, ⟨rfl, (h.2.1 rfl).1⟩, ⟨by decide, rfl, (g.2.2 (by decide) rfl).1⟩⟩

/-- C8 as stated fails: with `key_size = 0` the call
`map_init(&map, false, 0, 4, 4)` on a non-null map fails with the Empty kind,
which is not the InvalidArgument kind. -/
theorem C8_counterexample :
    (0 < 1 ∨ 4 < 1 ∨ 4 < 1)
    ∧ (map_init true (some blank_map) false 0 4 4).1 = ResultKind.Empty
    ∧ (map_init true (some blank_map) false 0 4 4).1 ≠ ResultKind.InvalidArgument := by
  decide

/-- C8 amended: `map_init` on a non-null map fails with the Empty result kind
if and only if `key_size < 1` or `val_size < 1` or `initial_capacity < 1`, and
never with InvalidArgument; on that failure the map record is left as it was,
and otherwise, when the backing array can allocate its storage, it returns
Success with `sorted`, `key_size` and `val_size` stored as given and size 0. -/
theorem C8_map_init (alloc_ok : Bool) (m : map_t) (sorted : Bool)
    (key_size val_size initial_capacity : Nat) :
    ((map_init alloc_ok (some m) sorted key_size val_size initial_capacity).1
        = ResultKind.Empty ↔ (key_size < 1 ∨ val_size < 1 ∨ initial_capacity < 1))
    ∧ (map_init alloc_ok (some m) sorted key_size val_size initial_capacity).1
        ≠ ResultKind.InvalidArgument
    ∧ ((key_size < 1 ∨ val_size < 1 ∨ initial_capacity < 1) →
        (map_init alloc_ok (some m) sorted key_size val_size initial_capacity).2 = some m)
    ∧ (¬ (key_size < 1 ∨ val_size < 1 ∨ initial_capacity < 1) → alloc_ok = true →
        ∃ m1, map_init alloc_ok (some m) sorted key_size val_size initial_capacity
            = (ResultKind.Success, some m1)
          ∧ m1.sorted = sorted ∧ m1.key_size = key_size ∧ m1.val_size = val_size
          ∧ m1.vla.size = 0) := by
  have e1 : MAP_EMPTY ≠ ResultKind.InvalidArgument := by decide
  have e2 : MAP_FAILURE ≠ ResultKind.InvalidArgument := by decide
  have e3 : MAP_SUCCESS ≠ ResultKind.InvalidArgument := by decide
  have e4 : MAP_FAILURE ≠ ResultKind.Empty := by decide
  have e5 : MAP_SUCCESS ≠ ResultKind.Empty := by decide
  by_cases hp : key_size < 1 ∨ val_size < 1 ∨ initial_capacity < 1
  · have h : map_init alloc_ok (some m) sorted key_size val_size initial_capacity
        = (MAP_EMPTY, some m) := by
      unfold map_init
      rw [if_pos hp]
    rw [h]
    exact ⟨⟨fun _ => hp, fun _ => rfl⟩, e1, fun _ => rfl, fun hn => absurd hp hn⟩
  · have hc : ¬ initial_capacity < 1 := fun hc => hp (Or.inr (Or.inr hc))
    cases alloc_ok with
    | false =>
      have h : map_init false (some m) sorted key_size val_size initial_capacity
          = (MAP_FAILURE, some m) := by
        unfold map_init
        rw [if_neg hp]
        simp [vla_init]
      rw [h]
      exact ⟨⟨fun hk => absurd hk e4, fun hq => absurd hq hp⟩, e2,
        fun hq => absurd hq hp, fun _ hf => absurd hf (by decide)⟩
    | true =>
      have h : map_init true (some m) sorted key_size val_size initial_capacity
          = (MAP_SUCCESS, some ⟨⟨some [], initial_capacity⟩, sorted, key_size, val_size⟩) := by
        unfold map_init
        rw [if_neg hp]
        simp [vla_init, hc]
      rw [h]
      exact ⟨⟨fun hk => absurd hk e5, fun hq => absurd hq hp⟩, e3,
        fun hq => absurd hq hp, fun _ _ => ⟨_, rfl, rfl, rfl, rfl, rfl⟩⟩

/-- C8 amended, at concrete inputs: `map_init(&map, false, 0, 4, 4)` fails
with Empty and writes nothing, `map_init(&map, false, 4, 4, 4)` succeeds. -/
theorem C8_map_init_witness :
    ((0 < 1 ∨ 4 < 1 ∨ 4 < 1)
      ∧ (map_init true (some blank_map) false 0 4 4).2 = some blank_map)
    ∧ (¬ (4 < 1 ∨ 4 < 1 ∨ 4 < 1)
      ∧ ∃ m1, map_init true (some blank_map) false 4 4 4 = (ResultKind.Success, some m1)
          ∧ m1.sorted = false ∧ m1.key_size = 4 ∧ m1.val_size = 4 ∧ m1.vla.size = 0) :=
  ⟨⟨by decide, (C8_map_init true blank_map false 0 4 4).2.2.1 (by decide)⟩,
   ⟨by decide, (C8_map_init true blank_map false 4 4 4).2.2.2 (by decide) rfl⟩⟩

/-- C9 (update in place) evaluated where the code departs from it.  The
unsorted map holds `[1] ↦ [9]` at index 0; with fresh memory reading as zero,
`map_set([1], [7])` returns Success and keeps the size at 1, but the pair at
index 0 then has the key buffer `[0]`, not `[1]`, and the value buffer `[0]`,
not `[7]`: `map_create_pair` allocates the two buffers and copies nothing
into them. -/
theorem C9_update_stores_unfilled_buffers :
    map_search 8 one_pair_heap one_pair_map [1] = some 0
    ∧ (map_set zero_fill 8 (some one_pair_map) one_pair_heap [1] [7]).map
          (fun o => (o.code, o.map.map (stored_keys o.heap), o.map.map (stored_vals o.heap)))
        = some (ResultKind.Success, some [[0]], some [[0]]) := by
  decide

/-- C10 (insert of a new key) evaluated where the code departs from it.  The
unsorted map holds the single pair `[1] ↦ [9]`; `map_set([2], [7])` returns
InternalFailure, not Success, and the map record is left as it was, still of
size 1: the not-found index is never recognised, so nothing is appended and
`vla_set` is called with an index out of range. -/
theorem C10_insert_of_new_key_fails :
    map_search 8 one_pair_heap one_pair_map [2] = some MAP_FAILURE_ulong
    ∧ (map_set zero_fill 8 (some one_pair_map) one_pair_heap [2] [7]).map
          (fun o => (o.code, o.map, o.map.map (fun m => m.vla.size)))
        = some (ResultKind.InternalFailure, some one_pair_map, some 1) := by
  decide

/-- C11 (precondition atomicity): whenever `map_get`, `map_set` or
`map_delete` returns NullArgument or Empty, the map record (sorted, key_size,
val_size, size, stored pairs), the heap (the live allocations) and the output
buffer are what they were before the call.  The NullArgument check comes
first: for a null map or unallocated storage, where the size reads 0 as well,
all three return NullArgument, not Empty. -/
theorem C11_precondition_atomicity (uninit : Nat → Nat → Nat) (fuel : Nat)
    (map : Option map_t) (heap : Heap) (key val out : List Nat) :
    (∀ r, map_get fuel map heap key out = some r →
        r.1.code = ResultKind.NullArgument ∨ r.1.code = ResultKind.Empty →
        r.1.map = map ∧ r.1.heap = heap ∧ r.2 = out)
    ∧ (∀ o, map_set uninit fuel map heap key val = some o →
        o.code = ResultKind.NullArgument ∨ o.code = ResultKind.Empty →
        o.map = map ∧ o.heap = heap)
    ∧ (∀ o, map_delete fuel map heap key = some o →
        o.code = ResultKind.NullArgument ∨ o.code = ResultKind.Empty →
        o.map = map ∧ o.heap = heap)
    ∧ ((map = none ∨ ∃ m, map = some m ∧ m.vla.elements = none ∧ m.vla.size < 1) →
        map_get fuel map heap key out
          = some ({ code := ResultKind.NullArgument, map := map, heap := heap }, out)
        ∧ map_set uninit fuel map heap key val
          = some { code := ResultKind.NullArgument, map := map, heap := heap }
        ∧ map_delete fuel map heap key
          = some { code := ResultKind.NullArgument, map := map, heap := heap }) := by
  refine ⟨?_, ?_, ?_, ?_⟩
  · intro r h hc
    obtain ⟨h1, h2, h3⟩ := map_get_frame fuel map heap key out r h
    refine ⟨h1, h2, h3 ?_⟩
    rcases hc with hc | hc <;> rw [hc] <;> decide
  · intro o h hc
    exact map_set_precondition_frame uninit fuel map heap key val o h hc
  · intro o h hc
    exact map_delete_precondition_frame fuel map heap key o h hc
  · intro hn
    rcases hn with hn | ⟨m, hm, he, _⟩
    · subst hn
      exact ⟨rfl, rfl, rfl⟩
    · subst hm
      simp [map_get, map_set, map_delete, he, MAP_NULL]

/-- C11 at concrete inputs: `map_set` on the empty map of
`map_init(&map, false, 4, 4, 4)` returns Empty and changes nothing, and on the
map record before `map_init`, whose storage is unallocated and whose size
reads 0, the three calls return NullArgument. -/
theorem C11_precondition_atomicity_witness :
    (∃ o, map_set zero_fill 0 (some fresh_map) one_pair_heap [1, 0, 0, 0] [9, 9, 9, 9] = some o
      ∧ o.code = ResultKind.Empty ∧ o.map = some fresh_map ∧ o.heap = one_pair_heap)
    ∧ (blank_map.vla.elements = none ∧ blank_map.vla.size < 1)
    ∧ map_get 0 (some blank_map) one_pair_heap [1, 0, 0, 0] [0, 0, 0, 0]
        = some ({ code := ResultKind.NullArgument, map := some blank_map,
                  heap := one_pair_heap }, [0, 0, 0, 0])
    ∧ map_set zero_fill 0 (some blank_map) one_pair_heap [1, 0, 0, 0] [9, 9, 9, 9]
        = some { code := ResultKind.NullArgument, map := some blank_map, heap := one_pair_heap }
    ∧ map_delete 0 (some blank_map) one_pair_heap [1, 0, 0, 0]
        = some { code := ResultKind.NullArgument, map := some blank_map,
                 heap := one_pair_heap } :=
  ⟨⟨_, rfl, rfl,
      (C11_precondition_atomicity zero_fill 0 (some fresh_map) one_pair_heap [1, 0, 0, 0]
        [9, 9, 9, 9] [0, 0, 0, 0]).2.1 _ rfl (Or.inr rfl)⟩,
   ⟨rfl, by decide⟩,
   (C11_precondition_atomicity zero_fill 0 (some blank_map) one_pair_heap [1, 0, 0, 0]
      [9, 9, 9, 9] [0, 0, 0, 0]).2.2.2 (Or.inr ⟨blank_map, rfl, rfl, by decide⟩)⟩

/-- C12 (`map_get` does not mutate): whatever `map_get` returns, the map record
(fields, size, stored pairs) and the heap are what they were before the call,
and the output buffer is unchanged unless the code is Success.  The call does
return: on a map whose size is at most half the range of an `unsigned long`,
any recursion budget above the size gives a result. -/
theorem C12_map_get_no_mutation (fuel : Nat) (map : Option map_t) (heap : Heap)
    (key val : List Nat) :
    (∀ r, map_get fuel map heap key val = some r →
        r.1.map = map ∧ r.1.heap = heap ∧ (r.1.code ≠ ResultKind.Success → r.2 = val))
    ∧ ((∀ m, map = some m → m.vla.size ≤ ULONG_SIZE / 2 ∧ m.vla.size < fuel) →
        ∃ r, map_get fuel map heap key val = some r) :=
  ⟨fun r h => map_get_frame fuel map heap key val r h,
   fun h => map_get_returns fuel map heap key val h⟩

/-- C12 at concrete inputs: on the sorted map holding `[1]`, `[2]`, `[3]`, a
`map_get([3])` that succeeds and writes `[7]` to the output buffer, and a
`map_get([1])` that fails and leaves the buffer alone; neither changes the
map or the heap. -/
theorem C12_map_get_no_mutation_witness :
    (map_get 4 (some three_pair_sorted_map) three_pair_heap [3] [0]
        = some ({ code := ResultKind.Success, map := some three_pair_sorted_map,
                  heap := three_pair_heap }, [7]))
    ∧ (∃ r, map_get 4 (some three_pair_sorted_map) three_pair_heap [1] [0] = some r
        ∧ r.1.code = ResultKind.InternalFailure
        ∧ r.1.map = some three_pair_sorted_map ∧ r.1.heap = three_pair_heap ∧ r.2 = [0]) :=
  ⟨by decide,
   have h := (C12_map_get_no_mutation 4 (some three_pair_sorted_map) three_pair_heap [1] [0]).1
     _ (by decide :
       map_get 4 (some three_pair_sorted_map) three_pair_heap [1] [0]
        = some ({ code := ResultKind.InternalFailure, map := some three_pair_sorted_map,
                  heap := three_pair_heap }, [0]))
   ⟨_, by decide, rfl, h.1, h.2.1, h.2.2 (by decide)⟩⟩

/-- C13 (clear) evaluated where the code departs from it.  The map holds one
pair with key buffer at address 1 and value buffer at address 2;
`map_clear` returns Success and the size becomes 0, as claimed, but the heap
is left as it was: both buffers of the pair are still allocated, and no
stored pair points to them any more. -/
theorem C13_clear_releases_no_pair :
    vla_get one_pair_map.vla 0 = some { key := 1, val := 2 }
    ∧ (map_clear (some one_pair_map) one_pair_heap).code = ResultKind.Success
    ∧ (map_clear (some one_pair_map) one_pair_heap).map.map (fun m => m.vla.size) = some 0
    ∧ (map_clear (some one_pair_map) one_pair_heap).heap = one_pair_heap
    ∧ (map_clear (some one_pair_map) one_pair_heap).heap.lookup 1 = some [1]
    ∧ (map_clear (some one_pair_map) one_pair_heap).heap.lookup 2 = some [9] := by
  decide

/-- C14 (deinit) evaluated where the code departs from it.  The map holds one
pair with key buffer at address 1 and value buffer at address 2;
`map_deinit` returns Success, releases the storage of the backing array and
sets `key_size` and `val_size` to 0, as claimed, but destroys no pair: both
buffers of the pair are still allocated afterwards. -/
theorem C14_deinit_destroys_no_pair :
    vla_get one_pair_map.vla 0 = some { key := 1, val := 2 }
    ∧ (map_deinit (some one_pair_map) one_pair_heap).code = ResultKind.Success
    ∧ (map_deinit (some one_pair_map) one_pair_heap).map.map
        (fun m => (m.vla.elements, m.key_size, m.val_size)) = some (none, 0, 0)
    ∧ (map_deinit (some one_pair_map) one_pair_heap).heap = one_pair_heap
    ∧ (map_deinit (some one_pair_map) one_pair_heap).heap.lookup 1 = some [1]
    ∧ (map_deinit (some one_pair_map) one_pair_heap).heap.lookup 2 = some [9] := by
  decide

/-- C15 (binary search) evaluated where the code departs from it.  The stored
keys `[1]`, `[2]`, `[3]` are strictly ascending and the query `[1]` is the key
at index 0.  At the first step `mid = 1` and the query compares below the
middle key, yet the search continues on the right, with `low = 2`, and ends
with the not-found sentinel. -/
theorem C15_binary_search_misses_left_key :
    keys_strictly_ascending three_pair_heap three_pair_sorted_map
    ∧ key_at three_pair_heap three_pair_sorted_map 0 = [1]
    ∧ memcmp [1] (key_at three_pair_heap three_pair_sorted_map 1) 1 < 0
    ∧ map_binary_search three_pair_heap three_pair_sorted_map [1] 4 0 2
        = map_binary_search three_pair_heap three_pair_sorted_map [1] 3 2 2
    ∧ map_binary_search three_pair_heap three_pair_sorted_map [1] 4 0 2
        = some MAP_FAILURE_ulong := by
  refine ⟨?_, by decide, by decide, by decide, by decide⟩
  unfold keys_strictly_ascending
  decide
/-- C16 (linear search): on a map of at most `ULONG_MAX` pairs whose key
buffers, like the query, hold at least `key_size` bytes, `map_linear_search`
returns the smallest index below the size whose key buffer is byte-equal to
the query over `key_size` bytes when there is one, and it returns the
not-found sentinel exactly when no stored key is byte-equal to the query. -/
theorem C16_linear_search (heap : Heap) (m : map_t) (key : List Nat)
    (hkey : m.key_size ≤ key.length)
    (hbuf : ∀ j, j < m.vla.size → m.key_size ≤ (key_at heap m j).length)
    (hsize : m.vla.size ≤ MAP_FAILURE_ulong) :
    ((∃ j, j < m.vla.size ∧ byte_equal key (key_at heap m j) m.key_size) →
        map_linear_search heap m key < m.vla.size
        ∧ byte_equal key (key_at heap m (map_linear_search heap m key)) m.key_size
        ∧ ∀ j, j < map_linear_search heap m key →
            ¬ byte_equal key (key_at heap m j) m.key_size)
    ∧ (map_linear_search heap m key = MAP_FAILURE_ulong ↔
        ∀ j, j < m.vla.size → ¬ byte_equal key (key_at heap m j) m.key_size) := by
  have hiff : ∀ j, j < m.vla.size →
      (memcmp key (key_at heap m j) m.key_size = 0 ↔ byte_equal key (key_at heap m j) m.key_size) :=
    fun j hj => memcmp_eq_zero_iff m.key_size key (key_at heap m j) hkey (hbuf j hj)
  have spec := map_linear_search_loop_spec heap m key m.vla.size 0 (by omega)
  unfold map_linear_search
  rcases spec with ⟨h1, h2⟩ | ⟨_, h2, h3, h4⟩
  · refine ⟨fun hex => ?_,
      fun _ j hj he => h2 j (Nat.zero_le _) hj ((hiff j hj).mpr he), fun _ => h1⟩
    obtain ⟨j, hj, he⟩ := hex
    exact absurd ((hiff j hj).mpr he) (h2 j (Nat.zero_le _) hj)
  · refine ⟨fun _ => ⟨h2, (hiff _ h2).mp h3, fun j hj he => ?_⟩, fun hs => ?_, fun hall => ?_⟩
    · exact h4 j (Nat.zero_le _) hj ((hiff j (by omega)).mpr he)
    · omega
    · exact absurd ((hiff _ h2).mp h3) (hall _ h2)

/-- C16 at a concrete input: the map holding `[0] ↦ [5]` and `[1] ↦ [9]` and
the query `[1]`, which the search finds at index 1. -/
theorem C16_linear_search_witness :
    (two_pair_map.key_size ≤ [1].length
      ∧ (∀ j, j < two_pair_map.vla.size →
          two_pair_map.key_size ≤ (key_at two_pair_heap two_pair_map j).length)
      ∧ two_pair_map.vla.size ≤ MAP_FAILURE_ulong)
    ∧ map_linear_search two_pair_heap two_pair_map [1] = 1
    ∧ ((∃ j, j < two_pair_map.vla.size
          ∧ byte_equal [1] (key_at two_pair_heap two_pair_map j) two_pair_map.key_size) →
        map_linear_search two_pair_heap two_pair_map [1] < two_pair_map.vla.size
        ∧ byte_equal [1]
            (key_at two_pair_heap two_pair_map (map_linear_search two_pair_heap two_pair_map [1]))
            two_pair_map.key_size
        ∧ ∀ j, j < map_linear_search two_pair_heap two_pair_map [1] →
            ¬ byte_equal [1] (key_at two_pair_heap two_pair_map j) two_pair_map.key_size)
    ∧ (map_linear_search two_pair_heap two_pair_map [1] = MAP_FAILURE_ulong ↔
        ∀ j, j < two_pair_map.vla.size →
          ¬ byte_equal [1] (key_at two_pair_heap two_pair_map j) two_pair_map.key_size) :=
  have hb : ∀ j, j < two_pair_map.vla.size →
      two_pair_map.key_size ≤ (key_at two_pair_heap two_pair_map j).length := by
    intro j hj
    have h2 : j < 2 := hj
    interval_cases j <;> decide
  ⟨⟨by decide, hb, by decide⟩, by decide,
   C16_linear_search two_pair_heap two_pair_map [1] (by decide) hb (by decide)⟩

/-- C17 (the two searches agree) evaluated where the code departs from it.
The stored keys `[1]`, `[2]`, `[3]` are strictly ascending and pairwise
distinct; for the query `[1]` the linear search returns index 0 and the binary
search returns the not-found sentinel, so `map_get([1])` succeeds on the map
with `sorted = false` and fails on the same pairs with `sorted = true`. -/
theorem C17_searches_disagree :
    stored_keys three_pair_heap three_pair_sorted_map = [[1], [2], [3]]
    ∧ keys_strictly_ascending three_pair_heap three_pair_sorted_map
    ∧ map_linear_search three_pair_heap three_pair_sorted_map [1] = 0
    ∧ map_binary_search three_pair_heap three_pair_sorted_map [1] 4 0
        (three_pair_sorted_map.vla.size - 1) = some MAP_FAILURE_ulong
    ∧ (map_get 4 (some { three_pair_sorted_map with sorted := false }) three_pair_heap
        [1] [0]).map (fun r => (r.1.code, r.2)) = some (ResultKind.Success, [9])
    ∧ (map_get 4 (some three_pair_sorted_map) three_pair_heap [1] [0]).map
        (fun r => (r.1.code, r.2)) = some (ResultKind.InternalFailure, [0]) := by
  refine ⟨by decide, ?_, by decide, by decide, by decide, by decide⟩
  unfold keys_strictly_ascending
  decide

/-- C18 (nothing is ever stored): on the map a successful `map_init` has just
produced, every finite sequence of `map_get`, `map_set`, `map_delete` and
`map_clear` calls runs to the end and leaves the map record and the heap as
they were, with size 0 and no stored pair; every `map_set` on it returns
Empty. -/
theorem C18_size_stays_zero (alloc_ok : Bool) (b m : map_t) (sorted : Bool)
    (key_size val_size initial_capacity : Nat)
    (hinit : map_init alloc_ok (some b) sorted key_size val_size initial_capacity
      = (MAP_SUCCESS, some m))
    (uninit : Nat → Nat → Nat) (fuel : Nat) (heap : Heap) (calls : List Call) :
    ∃ m1 heap1, run_calls uninit fuel calls (some m) heap = some (some m1, heap1)
      ∧ m1.vla.size = 0 ∧ m1.vla.elements = some [] ∧ m1 = m ∧ heap1 = heap
      ∧ ∀ key val, map_set uninit fuel (some m1) heap1 key val
          = some { code := ResultKind.Empty, map := some m1, heap := heap1 } := by
  have hm := (map_init_success hinit).1
  have he : m.vla.elements = some [] := by rw [hm]
  exact ⟨m, heap, run_calls_of_size_zero uninit fuel m heap he calls,
    by simp [vla_t.size, he], he, rfl, rfl,
    fun key val => map_set_of_size_zero uninit fuel m heap key val he⟩

/-- C18 at a concrete input: the map of `map_init(&map, false, 4, 4, 4)` and
the calls of the specification's scenario. -/
theorem C18_size_stays_zero_witness :
    map_init true (some blank_map) false 4 4 4 = (MAP_SUCCESS, some fresh_map)
    ∧ ∃ m1 heap1,
        run_calls zero_fill 8
            [Call.set [1, 0, 0, 0] [9, 9, 9, 9], Call.set [2, 0, 0, 0] [8, 8, 8, 8],
             Call.get [1, 0, 0, 0] [0, 0, 0, 0], Call.delete [1, 0, 0, 0], Call.clear,
             Call.get [2, 0, 0, 0] [0, 0, 0, 0]]
            (some fresh_map) empty_heap = some (some m1, heap1)
        ∧ m1.vla.size = 0 ∧ m1.vla.elements = some [] ∧ m1 = fresh_map ∧ heap1 = empty_heap
        ∧ ∀ key val, map_set zero_fill 8 (some m1) heap1 key val
            = some { code := ResultKind.Empty, map := some m1, heap := heap1 } :=
  ⟨by decide,
   C18_size_stays_zero true blank_map fresh_map false 4 4 4 (by decide) zero_fill 8
     empty_heap _⟩

/-- C19 (termination of the binary search): on a map of size at least 1 and at
most half the range of an `unsigned long`, the call
`map_binary_search(map, key, 0, size - 1)` returns within `size + 1`
invocations, that is at most `size` nested recursive calls, and a larger
recursion budget gives the same result; `size - 1` is computed modulo
`ULONG_SIZE` as the source does. -/
theorem C19_binary_search_terminates (heap : Heap) (m : map_t) (key : List Nat)
    (hsize : 1 ≤ m.vla.size) (hfit : m.vla.size ≤ ULONG_SIZE / 2)
    (fuel : Nat) (hfuel : m.vla.size + 1 ≤ fuel) :
    (m.vla.size + ULONG_SIZE - 1) % ULONG_SIZE = m.vla.size - 1
    ∧ ∃ r, map_binary_search heap m key (m.vla.size + 1) 0 (m.vla.size - 1) = some r
        ∧ map_binary_search heap m key fuel 0 (m.vla.size - 1) = some r := by
  have hU : ULONG_SIZE = 18446744073709551616 := by decide
  refine ⟨by rw [hU] at hfit ⊢; omega, ?_⟩
  obtain ⟨r, hr⟩ := map_binary_search_returns heap m key (m.vla.size - 1)
    (by rw [hU] at hfit ⊢; omega) (m.vla.size + 1) 0 (by omega) (by omega)
  refine ⟨r, hr, ?_⟩
  have hmore := map_binary_search_fuel_le heap m key (m.vla.size + 1) 0 (m.vla.size - 1) r hr
    (fuel - (m.vla.size + 1))
  have hf : m.vla.size + 1 + (fuel - (m.vla.size + 1)) = fuel := by omega
  rw [hf] at hmore
  exact hmore

/-- C19 at a concrete input: the sorted map holding the single key `[1]` and
the query `[0]`, which compares below the key at `mid = 0`; the search returns
the sentinel after two invocations. -/
theorem C19_binary_search_terminates_witness :
    (1 ≤ one_pair_sorted_map.vla.size ∧ one_pair_sorted_map.vla.size ≤ ULONG_SIZE / 2
      ∧ one_pair_sorted_map.vla.size + 1 ≤ 5)
    ∧ memcmp [0] (key_at one_pair_heap one_pair_sorted_map 0) 1 < 0
    ∧ map_binary_search one_pair_heap one_pair_sorted_map [0] 2 0 0 = some MAP_FAILURE_ulong
    ∧ (one_pair_sorted_map.vla.size + ULONG_SIZE - 1) % ULONG_SIZE
        = one_pair_sorted_map.vla.size - 1
    ∧ ∃ r, map_binary_search one_pair_heap one_pair_sorted_map [0]
            (one_pair_sorted_map.vla.size + 1) 0 (one_pair_sorted_map.vla.size - 1) = some r
        ∧ map_binary_search one_pair_heap one_pair_sorted_map [0] 5 0
            (one_pair_sorted_map.vla.size - 1) = some r :=
  ⟨⟨by decide, by decide, by decide⟩, by decide, by decide,
   C19_binary_search_terminates one_pair_heap one_pair_sorted_map [0] (by decide) (by decide)
     5 (by decide)⟩
end Map
